import Mathlib

/-!
Verification of the YouTube-to-Notion sync script (src/main.py).

The script talks to two remote collaborators: the YouTube Data API (batched
metadata fetches) and the Notion API (database queries, page creation, page
update, page fetch).  We embed the script's Notion-facing logic as explicit
state passing over a model of the Notion store, with a trace counting remote
calls and an oracle deciding the outcome of each HTTP call in program order
(success, non-200 status, or a raised exception - the script treats the last
two identically at every call site).

Python `None`-able string values are modelled as `Option String`, Python
truthiness of such values by `pyTruthy`, and Python `==` between possibly-None
values by `pyEq`.
-/

/-- Outcome of one HTTP call: 200 response, non-200 response, or an exception
raised by `requests`. -/
inductive CallResult
  | ok
  | badStatus
  | raised
deriving DecidableEq

/-- Decides the result of the n-th remote call of a run (calls are numbered in
program order by the `clock` field of `RState`). -/
def Oracle : Type := Nat → CallResult

/-- The all-successful oracle: every HTTP call returns status 200. -/
def allOk : Oracle := fun _ => CallResult.ok

/-- Python truthiness of a `str | None` value: None and the empty string are
falsy. -/
def pyTruthy : Option String → Bool
  | none => false
  | some s => !s.isEmpty

/-- Python `==` between two `str | None` values. -/
def pyEq : Option String → Option String → Bool
  | none, none => true
  | some a, some b => a == b
  | _, _ => false

/-- A Notion rich-text property filter, as constructed in the query payloads of
`check_if_video_exists` (line 436) and `check_if_channel_exists` (line 287).
The repository's earlier version used the `contains` operator; the hardened
`main.py` uses `equals` (comment at line 440). -/
inductive RichTextFilter
  | eq (val : String)
  | contains (val : String)
deriving DecidableEq

/-- Whether the char list `sub` is an initial segment of `l`. -/
def startsWithChars : List Char → List Char → Bool
  | [], _ => true
  | _ :: _, [] => false
  | a :: as, b :: bs => a == b && startsWithChars as bs

/-- Whether the char list `sub` occurs contiguously inside `l`. -/
def hasSubChars (sub : List Char) : List Char → Bool
  | [] => startsWithChars sub []
  | b :: bs => startsWithChars sub (b :: bs) || hasSubChars sub bs

/-- Notion's semantics for a rich-text filter against a stored string:
`equals` matches exactly, `contains` matches any substring occurrence. -/
def filterMatches (f : RichTextFilter) (stored : String) : Bool :=
  match f with
  | RichTextFilter.eq v => stored == v
  | RichTextFilter.contains v => hasSubChars v.toList stored.toList

/-- The filter payload built by `check_if_video_exists` (main.py lines
436-443): property "Video Id", rich_text equals the queried id. -/
def videoQueryFilter (videoId : String) : RichTextFilter :=
  RichTextFilter.eq videoId

/-- The filter payload built by `check_if_channel_exists` (main.py lines
287-294): property "Channel Id", rich_text equals the queried id. -/
def channelQueryFilter (channelId : String) : RichTextFilter :=
  RichTextFilter.eq channelId

/-- One row of the Notion channel database, holding exactly the properties the
script ever writes (`create_channel_entry` / `update_channel_entry`).
`url`/`icon` are absent (`none`) when the corresponding payload omitted them. -/
structure ChannelPage where
  pageId : String
  name : String
  channelId : String
  url : Option String
  icon : Option String
deriving DecidableEq

/-- One row of the Notion video database, holding exactly the properties the
script ever writes (`add_data_to_notion` / `update_video_entry`).
`channelRelation` is the single-valued relation to the channel page. -/
structure VideoPage where
  pageId : String
  name : String
  videoId : String
  date : String
  duration : String
  categoryId : String
  categoryName : Option String
  thumbnail : Option String
  url : Option String
  channelRelation : Option String
  cover : Option String
deriving DecidableEq

/-- The remote Notion store: both databases plus a counter minting fresh page
ids on creation. -/
structure Store where
  channels : List ChannelPage
  videos : List VideoPage
  nextId : Nat
deriving DecidableEq

/-- Counts of remote Notion calls issued so far, by kind. -/
structure Trace where
  queries : Nat
  creates : Nat
  updates : Nat
  gets : Nat
deriving DecidableEq

/-- Full remote-interaction state threaded through the embedded functions:
the store, the call-count trace, and the program-order call clock consumed by
the oracle. -/
structure RState where
  store : Store
  trace : Trace
  clock : Nat
deriving DecidableEq

def emptyStore : Store := { channels := [], videos := [], nextId := 0 }

def startState : RState :=
  { store := emptyStore
    trace := { queries := 0, creates := 0, updates := 0, gets := 0 }
    clock := 0 }

def bumpQuery (t : Trace) : Trace := { t with queries := t.queries + 1 }
def bumpCreate (t : Trace) : Trace := { t with creates := t.creates + 1 }
def bumpUpdate (t : Trace) : Trace := { t with updates := t.updates + 1 }
def bumpGet (t : Trace) : Trace := { t with gets := t.gets + 1 }

/-- Issue one remote call: consult the oracle at the current clock, advance the
clock, and count the call in the trace. -/
def doCall (o : Oracle) (rs : RState) (bump : Trace → Trace) : CallResult × RState :=
  (o rs.clock, { rs with clock := rs.clock + 1, trace := bump rs.trace })

/-- The Python slice `s[:n]` over code points (main.py truncates titles with
`[:2000]`). -/
def pyTake (n : Nat) (s : String) : String := (s.toList.take n).asString

/-- The page id Notion assigns to the next created page. -/
def mintPageId (st : Store) : String := "page-" ++ toString st.nextId

/-- The normalized video record built by `get_video_stats` (main.py lines
100-113), field for field in dict-insertion order; optional fields model the
entries that may be `None`. -/
structure VideoData where
  name : String
  videoId : String
  date : String
  channel : String
  channelId : String
  duration : String
  thumbnail : Option String
  categoryId : String
  url : Option String
  channelCustomUrl : Option String
  channelLogoUrl : Option String
  categoryName : Option String
deriving DecidableEq

/-- The Notion database query issued by `check_if_video_exists`: all rows of
the video database whose "Video Id" rich-text property matches the filter. -/
def queryVideos (st : Store) (videoId : String) : List VideoPage :=
  st.videos.filter (fun p => filterMatches (videoQueryFilter videoId) p.videoId)

/-- The Notion database query issued by `check_if_channel_exists`: all rows of
the channel database whose "Channel Id" rich-text property matches the
filter. -/
def queryChannels (st : Store) (channelId : String) : List ChannelPage :=
  st.channels.filter (fun p => filterMatches (channelQueryFilter channelId) p.channelId)

/-- Notion page retrieval by page id (the GET issued by
`get_existing_channel_data` / `get_existing_video_data`). -/
def lookupChannelPage (st : Store) (pageId : String) : Option ChannelPage :=
  st.channels.find? (fun p => p.pageId == pageId)

def lookupVideoPage (st : Store) (pageId : String) : Option VideoPage :=
  st.videos.find? (fun p => p.pageId == pageId)

/-! ### Channel side (main.py lines 214-424) -/

/-- `check_if_channel_exists` (main.py lines 278-309): one query POST; on a 200
response return the first result's page id or `none` when there are no
results; on a non-200 response or an exception return `none`. -/
def check_if_channel_exists (o : Oracle) (channelId : String) (rs : RState) :
    Option String × RState :=
  let c := doCall o rs bumpQuery
  match c.1 with
  | CallResult.ok =>
    match queryChannels c.2.store channelId with
    | p :: _ => (some p.pageId, c.2)
    | [] => (none, c.2)
  | _ => (none, c.2)

/-- The channel page written by `create_channel_entry` (main.py lines 223-262):
Name truncated to 2000, Channel Id, URL only when the custom URL is truthy,
icon only when the logo URL is truthy. -/
def newChannelPage (st : Store) (channelName channelId : String)
    (channelLogoUrl channelCustomUrl : Option String) : ChannelPage :=
  { pageId := mintPageId st
    name := pyTake 2000 channelName
    channelId := channelId
    url := if pyTruthy channelCustomUrl then channelCustomUrl else none
    icon := if pyTruthy channelLogoUrl then channelLogoUrl else none }

/-- `create_channel_entry` (main.py lines 214-275): one create POST; on 200 the
page is appended to the channel database and its id returned, otherwise
`none`. -/
def create_channel_entry (o : Oracle) (channelName channelId : String)
    (channelLogoUrl channelCustomUrl : Option String) (rs : RState) :
    Option String × RState :=
  let c := doCall o rs bumpCreate
  match c.1 with
  | CallResult.ok =>
    let p := newChannelPage c.2.store channelName channelId channelLogoUrl channelCustomUrl
    (some p.pageId,
      { c.2 with store :=
        { c.2.store with
          channels := c.2.store.channels ++ [p]
          nextId := c.2.store.nextId + 1 } })
  | _ => (none, c.2)

/-- The dict returned by `get_existing_channel_data` (main.py lines 326-330).
Name and Channel Id read back as strings (an empty title / rich-text property
answers with an empty list, which is falsy, so those guards yield the empty
string).  The URL property is different: the pinned Notion API version returns
every schema property, an unset URL as a truthy dict with a null `url` field,
so the guard at line 329 passes and `.get('url', '')` yields the stored string
or Python None - never the empty-string fallback. -/
structure ExistingChannelData where
  name : String
  channelId : String
  url : Option String
deriving DecidableEq

def channelPageReadback (p : ChannelPage) : ExistingChannelData :=
  { name := p.name, channelId := p.channelId, url := p.url }

/-- `get_existing_channel_data` (main.py lines 312-337): one page GET; `none`
on a non-200 response or an exception (a missing page answers 404). -/
def get_existing_channel_data (o : Oracle) (pageId : String) (rs : RState) :
    Option ExistingChannelData × RState :=
  let c := doCall o rs bumpGet
  match c.1 with
  | CallResult.ok =>
    match lookupChannelPage c.2.store pageId with
    | some p => (some (channelPageReadback p), c.2)
    | none => (none, c.2)
  | _ => (none, c.2)

/-- The comparison of `update_channel_entry` (main.py lines 348-352):
update_required is set when the stored Name, URL or Channel Id differs from
the incoming value; the stored URL (a string or None) is compared with the
possibly `None` incoming custom URL by Python `!=`. -/
def channel_update_required (e : ExistingChannelData) (channelName channelId : String)
    (channelCustomUrl : Option String) : Bool :=
  !(e.name == channelName) || !(pyEq e.url channelCustomUrl)
    || !(e.channelId == channelId)

/-- The property patch of `update_channel_entry` (main.py lines 365-401)
applied to a stored page: Name and Channel Id always, URL and icon only when
the incoming value is truthy (Notion PATCH leaves unmentioned properties
untouched). -/
def applyChannelPatch (channelName channelId : String)
    (channelLogoUrl channelCustomUrl : Option String) (p : ChannelPage) : ChannelPage :=
  { p with
    name := pyTake 2000 channelName
    channelId := channelId
    url := if pyTruthy channelCustomUrl then channelCustomUrl else p.url
    icon := if pyTruthy channelLogoUrl then channelLogoUrl else p.icon }

def patchChannelInStore (st : Store) (pageId : String) (channelName channelId : String)
    (channelLogoUrl channelCustomUrl : Option String) : Store :=
  { st with channels := st.channels.map (fun p =>
      if p.pageId == pageId
      then applyChannelPatch channelName channelId channelLogoUrl channelCustomUrl p
      else p) }

/-- `update_channel_entry` (main.py lines 340-411): fetch the page; give up on
fetch failure; compare; if nothing differs, no further call; otherwise one
PATCH, applied to the store only on a 200 response. -/
def update_channel_entry (o : Oracle) (existingChannelId : String)
    (channelName channelId : String) (channelLogoUrl channelCustomUrl : Option String)
    (rs : RState) : RState :=
  let f := get_existing_channel_data o existingChannelId rs
  match f.1 with
  | none => f.2
  | some e =>
    if channel_update_required e channelName channelId channelCustomUrl then
      let c := doCall o f.2 bumpUpdate
      match c.1 with
      | CallResult.ok =>
        { c.2 with store :=
            (patchChannelInStore c.2.store existingChannelId channelName channelId
              channelLogoUrl channelCustomUrl) }
      | _ => c.2
    else f.2

/-- `get_or_create_channel_entry` (main.py lines 414-424). -/
def get_or_create_channel_entry (o : Oracle) (channelName channelId : String)
    (channelLogoUrl channelCustomUrl : Option String) (rs : RState) :
    Option String × RState :=
  let c := check_if_channel_exists o channelId rs
  match c.1 with
  | some existingChannelId =>
    (some existingChannelId,
      update_channel_entry o existingChannelId channelName channelId
        channelLogoUrl channelCustomUrl c.2)
  | none => create_channel_entry o channelName channelId channelLogoUrl channelCustomUrl c.2

/-! ### Video side (main.py lines 427-697) -/

/-- `check_if_video_exists` (main.py lines 427-458): one query POST; on 200 the
first result's page id or `none` when there are no results; `none` on a
non-200 response or an exception. -/
def check_if_video_exists (o : Oracle) (videoId : String) (rs : RState) :
    Option String × RState :=
  let c := doCall o rs bumpQuery
  match c.1 with
  | CallResult.ok =>
    match queryVideos c.2.store videoId with
    | p :: _ => (some p.pageId, c.2)
    | [] => (none, c.2)
  | _ => (none, c.2)

/-- The incoming field map `data` of `get_video_stats` (main.py lines 100-113),
keys in dict-insertion order, values as Python `str | None`. -/
def videoIncomingMap (d : VideoData) : List (String × Option String) :=
  [("Name", some d.name), ("Video Id", some d.videoId), ("Date", some d.date),
   ("Channel", some d.channel), ("Channel Id", some d.channelId),
   ("Duration", some d.duration), ("Thumbnail", d.thumbnail),
   ("Category Id", some d.categoryId), ("URL", d.url),
   ("Channel Custom URL", d.channelCustomUrl),
   ("Channel Logo URL", d.channelLogoUrl), ("Category Name", d.categoryName)]

/-- The dict built by `get_existing_video_data` (main.py lines 475-484).
Empty title / rich-text / date / select / relation properties answer with a
falsy `title` / `rich_text` list, null `date` / `select`, or empty `relation`
list, so those guards yield the empty string ("Channel" otherwise reads back
as the first related page id).  The url-typed "Thumbnail" and "URL" properties
(lines 479-480) answer with a truthy dict whose `url` field is the stored
string or null, so they read back as the string or Python None - the guards
never fire. -/
def videoExistingMap (p : VideoPage) : List (String × Option String) :=
  [("Name", some p.name), ("Date", some p.date), ("Duration", some p.duration),
   ("Thumbnail", p.thumbnail), ("URL", p.url),
   ("Category Id", some p.categoryId),
   ("Category Name", some (p.categoryName.getD "")),
   ("Channel", some (p.channelRelation.getD ""))]

/-- `get_existing_video_data` (main.py lines 461-491): one page GET; `none` on
a non-200 response or an exception. -/
def get_existing_video_data (o : Oracle) (pageId : String) (rs : RState) :
    Option VideoPage × RState :=
  let c := doCall o rs bumpGet
  match c.1 with
  | CallResult.ok =>
    match lookupVideoPage c.2.store pageId with
    | some p => (some p, c.2)
    | none => (none, c.2)
  | _ => (none, c.2)

/-- The diff loop of `update_video_entry` (main.py lines 502-506): iterate the
incoming map; a key is differing when it is also present in the existing map
and the two values are not Python-equal. -/
def videoDiffKeys (incoming existing : List (String × Option String)) : List String :=
  incoming.filterMap (fun kv =>
    match List.lookup kv.1 existing with
    | some w => if pyEq w kv.2 then none else some kv.1
    | none => none)

/-- `update_required` of `update_video_entry`: at least one differing key. -/
def videoUpdateRequired (incoming existing : List (String × Option String)) : Bool :=
  !(videoDiffKeys incoming existing).isEmpty

/-- The property patch of `update_video_entry` (main.py lines 519-582) applied
to a stored page.  After the diff loop `existing_data` holds the incoming Name
and Date, so the patch carries the incoming values; Thumbnail, URL and the
cover are included only when truthy; the "Channel" relation is not part of the
patch, so Notion leaves it untouched. -/
def applyVideoPatch (d : VideoData) (p : VideoPage) : VideoPage :=
  { p with
    name := pyTake 2000 d.name
    videoId := d.videoId
    date := d.date
    duration := d.duration
    categoryId := d.categoryId
    categoryName := d.categoryName
    thumbnail := if pyTruthy d.thumbnail then d.thumbnail else p.thumbnail
    url := if pyTruthy d.url then d.url else p.url
    cover := if pyTruthy d.thumbnail then d.thumbnail else p.cover }

def patchVideoInStore (st : Store) (pageId : String) (d : VideoData) : Store :=
  { st with videos := st.videos.map (fun p =>
      if p.pageId == pageId then applyVideoPatch d p else p) }

/-- Observable result of `update_video_entry` (the function itself returns
`None`; the labels classify which branch ran). -/
inductive UpdateResult
  | fetchFailed
  | noDiff
  | patched
  | patchFailed
deriving DecidableEq

/-- `update_video_entry` (main.py lines 494-592): fetch the page; give up on
fetch failure; run the diff loop; if no key differs, no further call;
otherwise one PATCH, applied to the store only on a 200 response. -/
def update_video_entry (o : Oracle) (existingVideoId : String) (d : VideoData)
    (rs : RState) : RState × UpdateResult :=
  let f := get_existing_video_data o existingVideoId rs
  match f.1 with
  | none => (f.2, UpdateResult.fetchFailed)
  | some p =>
    if videoUpdateRequired (videoIncomingMap d) (videoExistingMap p) then
      let c := doCall o f.2 bumpUpdate
      match c.1 with
      | CallResult.ok =>
        ({ c.2 with store := patchVideoInStore c.2.store existingVideoId d },
          UpdateResult.patched)
      | _ => (c.2, UpdateResult.patchFailed)
    else (f.2, UpdateResult.noDiff)

/-- The video page written by the create POST of `add_data_to_notion`
(main.py lines 611-687): Name truncated to 2000; Thumbnail, URL and cover only
when truthy; the "Channel" relation only when the channel entry id is
truthy. -/
def newVideoPage (st : Store) (d : VideoData) (channelEntryId : Option String) : VideoPage :=
  { pageId := mintPageId st
    name := pyTake 2000 d.name
    videoId := d.videoId
    date := d.date
    duration := d.duration
    categoryId := d.categoryId
    categoryName := d.categoryName
    thumbnail := if pyTruthy d.thumbnail then d.thumbnail else none
    url := if pyTruthy d.url then d.url else none
    channelRelation := if pyTruthy channelEntryId then channelEntryId else none
    cover := if pyTruthy d.thumbnail then d.thumbnail else none }

/-- Outcome classification of the media upsert (spec section 4.3); the source
logs instead of returning, so the labels record which observable branch ran. -/
inductive Outcome
  | created
  | updated
  | unchanged
  | skipped
  | failed
deriving DecidableEq

def UpdateResult.toOutcome : UpdateResult → Outcome
  | UpdateResult.fetchFailed => Outcome.failed
  | UpdateResult.noDiff => Outcome.unchanged
  | UpdateResult.patched => Outcome.updated
  | UpdateResult.patchFailed => Outcome.failed

/-- `add_data_to_notion` (main.py lines 595-697): existence check, then either
the diff-gated update path or one create POST appending the new page on a 200
response. -/
def add_data_to_notion (o : Oracle) (d : VideoData) (channelEntryId : Option String)
    (rs : RState) : RState × Outcome :=
  let c := check_if_video_exists o d.videoId rs
  match c.1 with
  | some existingVideoId =>
    let u := update_video_entry o existingVideoId d c.2
    (u.1, u.2.toOutcome)
  | none =>
    let c2 := doCall o c.2 bumpCreate
    match c2.1 with
    | CallResult.ok =>
      ({ c2.2 with store :=
          { c2.2.store with
            videos := c2.2.store.videos ++ [newVideoPage c2.2.store d channelEntryId]
            nextId := c2.2.store.nextId + 1 } },
        Outcome.created)
    | _ => (c2.2, Outcome.failed)

/-- The media upsert as the spec's `upsert(media, ownerRef)`: the owner guard
of `main` (main.py lines 790-793, skip when the channel entry id is falsy)
followed by `add_data_to_notion`. -/
def media_upsert (o : Oracle) (d : VideoData) (ownerRef : Option String)
    (rs : RState) : RState × Outcome :=
  if pyTruthy ownerRef then add_data_to_notion o d ownerRef rs
  else (rs, Outcome.skipped)

/-! ### Orchestrator loop (main.py lines 774-810) -/

/-- One iteration of the per-video loop of `main`: resolve the channel; when
the resolver returned a falsy id, count an error and move on; otherwise run
`add_data_to_notion` and count a success (the loop body raises nothing in the
model, so the surrounding try/except is inert). -/
def processVideoItem (o : Oracle) (d : VideoData) (rs : RState) : RState × Bool :=
  let c := get_or_create_channel_entry o d.channel d.channelId d.channelLogoUrl
    d.channelCustomUrl rs
  if pyTruthy c.1 then
    ((add_data_to_notion o d c.1 c.2).1, true)
  else (c.2, false)

/-- The per-video loop of `main` with its success and error counters; returns
(final state, success subtotal, error subtotal). -/
def mainLoop (o : Oracle) (items : List VideoData) (rs : RState) : RState × Nat × Nat :=
  match items with
  | [] => (rs, 0, 0)
  | d :: rest =>
    let s := processVideoItem o d rs
    let r := mainLoop o rest s.1
    if s.2 then (r.1, r.2.1 + 1, r.2.2) else (r.1, r.2.1, r.2.2 + 1)

/-! ### Metadata normalizer (main.py lines 41-62 and 138-148) -/

/-- The hour/minute/second components of a parsed timedelta
(`pd.to_timedelta(...).components`); pandas is an external collaborator, so
the parse itself is a parameter of the embedded functions. -/
structure TimedeltaComponents where
  hours : Nat
  minutes : Nat
  seconds : Nat
deriving DecidableEq

/-- `convert_duration` (main.py lines 41-62), with the external pandas parser
passed in: on parse failure return "Unknown"; otherwise join the non-zero
components and return "0s" when all are zero. -/
def convert_duration (toTimedelta : String → Option TimedeltaComponents)
    (duration : String) : String :=
  match toTimedelta duration with
  | none => "Unknown"
  | some c =>
    let s1 := if c.hours > 0 then toString c.hours ++ " hours " else ""
    let s2 := s1 ++ (if c.minutes > 0 then toString c.minutes ++ " mins " else "")
    let s3 := s2 ++ (if c.seconds > 0 then toString c.seconds ++ " secs" else "")
    if s3.isEmpty then "0s" else s3.trim

/-- A wall-clock reading, as carried by a Python `datetime`. -/
structure PyDateTime where
  year : Nat
  month : Nat
  day : Nat
  hour : Nat
  minute : Nat
  second : Nat
deriving DecidableEq

def pad2 (n : Nat) : String := if n < 10 then "0" ++ toString n else toString n

/-- `strftime` with the script's fixed pattern
(year-month-dayThour:minute:second.000Z, main.py lines 144 and 148). -/
def formatNotionTs (t : PyDateTime) : String :=
  toString t.year ++ "-" ++ pad2 t.month ++ "-" ++ pad2 t.day ++ "T"
    ++ pad2 t.hour ++ ":" ++ pad2 t.minute ++ ":" ++ pad2 t.second ++ ".000Z"

/-- `parse_and_format_published_date` (main.py lines 138-148).  The external
pieces are parameters: `strptime` (parsing with the fixed catalog format),
`toKolkata` (the timezone conversion of `astimezone`), and `now` (the wall
clock read by `datetime.now()` in the fallback branch). -/
def parse_and_format_published_date (strptime : String → Option PyDateTime)
    (toKolkata : PyDateTime → PyDateTime) (now : PyDateTime)
    (publishedAt : String) : String :=
  match strptime publishedAt with
  | some t => formatNotionTs (toKolkata t)
  | none => formatNotionTs now

/-! ### YouTube batch chunking (main.py lines 37 and 70-81) -/

def YOUTUBE_BATCH_SIZE : Nat := 50

/-- The loop indices `range(0, len(video_ids), YOUTUBE_BATCH_SIZE)` of
`get_video_stats` (main.py line 73). -/
def youtubeBatchStarts (n : Nat) : List Nat :=
  (List.range n).filter (fun i => i % YOUTUBE_BATCH_SIZE == 0)

/-- The batches `video_ids[i:i + YOUTUBE_BATCH_SIZE]` of `get_video_stats`
(main.py line 74), in loop order. -/
def youtubeBatches (videoIds : List String) : List (List String) :=
  (youtubeBatchStarts videoIds.length).map
    (fun i => (videoIds.drop i).take YOUTUBE_BATCH_SIZE)

/-- Each loop iteration issues exactly one `videos().list` request (main.py
lines 77-81), whether or not it subsequently fails, so the number of fetch
calls is the number of batches. -/
def youtubeFetchCalls (videoIds : List String) : Nat :=
  (youtubeBatches videoIds).length

/-! ### Field maps of the channel comparison

`update_channel_entry` compares three fixed fields.  Viewing them as field
maps in the sense of the spec's Diff Gate: the incoming map is built the way
every channel write payload is built (main.py lines 223-246 and 365-388: Name
and Channel Id always, URL only when the custom URL is truthy), the existing
map is the dict of `get_existing_channel_data` (main.py lines 326-330). -/

def channelIncomingMap (channelName channelId : String)
    (channelCustomUrl : Option String) : List (String × Option String) :=
  [("Name", some channelName), ("Channel Id", some channelId)]
    ++ (if pyTruthy channelCustomUrl then [("URL", channelCustomUrl)] else [])

def channelExistingMap (e : ExistingChannelData) : List (String × Option String) :=
  [("Name", some e.name), ("Channel Id", some e.channelId), ("URL", e.url)]

/-! ### Concrete inputs used by the concrete theorems below -/

/-- A fully populated normalized video record (every optional field present). -/
def dEx : VideoData :=
  { name := "Video A", videoId := "vid1", date := "2024-01-01T00:00:00.000Z",
    channel := "MyChannel", channelId := "chan1", duration := "5 mins",
    thumbnail := some "https://img.example/t.jpg", categoryId := "22",
    url := some "https://www.youtube.com/watch?v=vid1",
    channelCustomUrl := some "https://www.youtube.com/@my",
    channelLogoUrl := some "https://img.example/logo.jpg",
    categoryName := some "People" }

/-- First upsert of `dEx` into the empty store, everything succeeding. -/
def c1FirstRun : RState × Outcome :=
  media_upsert allOk dEx (some "chan-page-1") startState

/-- Second upsert with identical input, everything succeeding. -/
def c1SecondRun : RState × Outcome :=
  media_upsert allOk dEx (some "chan-page-1") c1FirstRun.1

/-- A stored channel page that carries a custom URL (the incoming record of
the counterexample no longer has one). -/
def pCh3 : ChannelPage :=
  { pageId := "page-0", name := "A", channelId := "c1",
    url := some "https://www.youtube.com/@a", icon := none }

def rsCh3 : RState :=
  { store := { channels := [pCh3], videos := [], nextId := 1 }
    trace := { queries := 0, creates := 0, updates := 0, gets := 0 }
    clock := 0 }

/-- First and second resolver call for a channel whose custom URL is the empty
string (falsy, so every create and update payload omits the URL property). -/
def c5FirstCall : Option String × RState :=
  get_or_create_channel_entry allOk "Chan" "c1" none (some "") startState

def c5SecondCall : Option String × RState :=
  get_or_create_channel_entry allOk "Chan" "c1" none (some "") c5FirstCall.2

/-- A channel name of 2001 characters - one more than the 2000-character
truncation applied to every stored title. -/
def nameLong : String := (List.replicate 2001 (Char.ofNat 97)).asString

/-- First and second resolver call for a channel whose name exceeds the
2000-character title limit. -/
def c5LongFirst : Option String × RState :=
  get_or_create_channel_entry allOk nameLong "c2" none none startState

def c5LongSecond : Option String × RState :=
  get_or_create_channel_entry allOk nameLong "c2" none none c5LongFirst.2

/-- Oracle for the orchestrator counterexample: the fourth remote call of the
run - the video create POST - answers with a non-200 status, every other call
succeeds. -/
def failVideoCreate : Oracle :=
  fun n => if n == 3 then CallResult.badStatus else CallResult.ok

def c6Run : RState × Nat × Nat := mainLoop failVideoCreate [dEx] startState

/-- A stored video page carrying the same "Video Id" as `dEx`. -/
def pDup : VideoPage :=
  { pageId := "page-9", name := "Video A", videoId := "vid1",
    date := "2024-01-01T00:00:00.000Z", duration := "5 mins",
    categoryId := "22", categoryName := some "People", thumbnail := none,
    url := none, channelRelation := some "page-0", cover := none }

/-- A store already holding a video page whose "Video Id" is the id of `dEx`. -/
def rsDup : RState :=
  { store := { channels := [], videos := [pDup], nextId := 10 }
    trace := { queries := 0, creates := 0, updates := 0, gets := 0 }
    clock := 0 }

/-- Oracle for the failed-existence-check scenario: the first remote call
raises an exception, every later call succeeds. -/
def failFirstCall : Oracle :=
  fun n => if n == 0 then CallResult.raised else CallResult.ok

/-- A stored video page whose identity is "abc123". -/
def pAbc123 : VideoPage :=
  { pageId := "page-1", name := "Other video", videoId := "abc123",
    date := "2024-01-01T00:00:00.000Z", duration := "1 mins", categoryId := "1",
    categoryName := none, thumbnail := none, url := none,
    channelRelation := none, cover := none }

/-- A store holding one video page whose identity is "abc123" (to show a query
for "abc" does not match it). -/
def storeAbc : Store :=
  { channels := [], videos := [pAbc123], nextId := 2 }

def rsAbc : RState :=
  { store := storeAbc
    trace := { queries := 0, creates := 0, updates := 0, gets := 0 }
    clock := 0 }

/-- A stored video page whose readback field map exactly equals the incoming
map of `dEx` (its relation holds the string that `dEx` carries in "Channel"). -/
def pMatch : VideoPage :=
  { pageId := "page-7", name := "Video A", videoId := "vid1",
    date := "2024-01-01T00:00:00.000Z", duration := "5 mins",
    categoryId := "22", categoryName := some "People",
    thumbnail := some "https://img.example/t.jpg",
    url := some "https://www.youtube.com/watch?v=vid1",
    channelRelation := some "MyChannel", cover := some "https://img.example/t.jpg" }

def rsMatch : RState :=
  { store := { channels := [], videos := [pMatch], nextId := 8 }
    trace := { queries := 0, creates := 0, updates := 0, gets := 0 }
    clock := 0 }

/-! ## Claim theorems -/

/-- C1 (code bug): the claim (and spec section 8) says a second upsert with
identical input performs zero update calls and is `unchanged`.  The code's
second run always PATCHes: the diff loop compares the incoming "Channel" value
(the channel title) with the stored "Channel" value (the relation page id),
which differ, so every re-run issues an update.  This theorem evaluates both
runs at the failing input: the first run is `created` with one create call;
the second run finds exactly one differing key, "Channel", and issues one
update call with outcome `updated` instead of zero with `unchanged`. -/
theorem c1_second_run_issues_update :
    c1FirstRun.2 = Outcome.created ∧
    c1FirstRun.1.trace.creates = 1 ∧
    c1FirstRun.1.trace.updates = 0 ∧
    (c1FirstRun.1.store.videos.map
      (fun p => videoDiffKeys (videoIncomingMap dEx) (videoExistingMap p)))
      = [["Channel"]] ∧
    c1SecondRun.2 = Outcome.updated ∧
    c1SecondRun.1.trace.creates = 1 ∧
    c1SecondRun.1.trace.updates = 1 := by
  decide

/-- C2: with a null (or otherwise falsy) owner reference the media upsert -
the owner guard of `main` (main.py lines 790-793) followed by
`add_data_to_notion` - returns `skipped` and leaves the remote state entirely
untouched: no query, no create, no update, no page fetch, and no media record
is ever created without its owner relation. -/
theorem c2_null_owner_skipped :
    (∀ (o : Oracle) (d : VideoData) (rs : RState),
      media_upsert o d none rs = (rs, Outcome.skipped)) ∧
    (∀ (o : Oracle) (d : VideoData) (ownerRef : Option String) (rs : RState),
      pyTruthy ownerRef = false → media_upsert o d ownerRef rs = (rs, Outcome.skipped)) := by
  constructor
  · intro o d rs; rfl
  · intro o d ownerRef rs h; simp [media_upsert, h]

/-- Witness for C2 at a concrete input. -/
theorem c2_witness :
    media_upsert allOk dEx (some "") startState = (startState, Outcome.skipped) :=
  c2_null_owner_skipped.2 allOk dEx (some "") startState rfl

/-- C4: both existence checks send an `equals` rich-text filter on the
identity property, and an `equals` filter matches a stored identity exactly:
never a strict prefix or substring.  Concretely, a query for "abc" returns no
results against a store whose only record has identity "abc123", while a
query for "abc123" finds it. -/
theorem c4_exact_match_identity :
    (∀ stored queried : String,
      filterMatches (videoQueryFilter queried) stored = true ↔ stored = queried) ∧
    (∀ stored queried : String,
      filterMatches (channelQueryFilter queried) stored = true ↔ stored = queried) ∧
    queryVideos storeAbc "abc" = [] ∧
    (check_if_video_exists allOk "abc" rsAbc).1 = none ∧
    (check_if_video_exists allOk "abc123" rsAbc).1 = some "page-1" := by
  refine ⟨?_, ?_, by decide, by decide, by decide⟩ <;>
    · intro stored queried
      simp [filterMatches, videoQueryFilter, channelQueryFilter]

/-- C3 counterexample: for the channel side of the diff gate the claim fails.
The stored channel carries a custom URL, the incoming record does not (the
upstream lookup returned null), so "URL" is absent from the incoming field map
and every field present in both maps is equal - yet `update_channel_entry`
issues one update call, because it compares the stored URL string against the
incoming None unconditionally (`"https://..." != None` is true in Python).
The PATCH it sends also omits the URL property, so nothing is reconciled and
the write repeats on every later run. -/
theorem c3_counterexample :
    ((channelIncomingMap "A" "c1" none).map Prod.fst).contains "URL" = false ∧
    ((channelIncomingMap "A" "c1" none).all (fun kv =>
      match List.lookup kv.1 (channelExistingMap (channelPageReadback pCh3)) with
      | some w => pyEq w kv.2
      | none => true)) = true ∧
    (update_channel_entry allOk "page-0" "A" "c1" none none rsCh3).trace.updates = 1 := by
  decide

/-- C5 counterexample: the entity resolver is not universally idempotent.
Two unchanged-input scenarios where the first call (empty store) creates the
record and the second call finds it but still performs an update write:
(1) a channel whose custom URL is the empty string - falsy, so omitted from
the create payload, read back as None, and None-compared unequal to the
incoming empty string; (2) a channel whose name is 2001 characters - the
stored title is truncated to 2000, so the readback compares unequal to the
incoming name and every later call PATCHes (the PATCH truncates again, so the
diff never closes). -/
theorem c5_counterexample :
    (c5FirstCall.1 = some "page-0" ∧
     c5FirstCall.2.trace.creates = 1 ∧
     c5FirstCall.2.trace.updates = 0 ∧
     c5SecondCall.1 = some "page-0" ∧
     c5SecondCall.2.trace.updates = 1) ∧
    (c5LongFirst.1 = some "page-0" ∧
     c5LongFirst.2.trace.creates = 1 ∧
     c5LongFirst.2.trace.updates = 0 ∧
     c5LongSecond.1 = some "page-0" ∧
     c5LongSecond.2.trace.updates = 1) := by
  refine ⟨by decide, rfl, rfl, rfl, ?_, ?_⟩
  all_goals
    have hne : pyTake 2000 nameLong ≠ nameLong := by
      intro h
      have h3 := congrArg (fun s => s.toList.length) h
      simp only [pyTake] at h3
      have e1 : ((nameLong.toList.take 2000).asString).toList
          = nameLong.toList.take 2000 := rfl
      have e2 : nameLong.toList = List.replicate 2001 (Char.ofNat 97) := rfl
      rw [e1, List.length_take, e2, List.length_replicate] at h3
      omega
    have hneq : (pyTake 2000 nameLong == nameLong) = false :=
      beq_eq_false_iff_ne.mpr hne
    have hst : c5LongFirst.2
        = ⟨⟨[newChannelPage emptyStore nameLong "c2" none none], [], 1⟩,
           ⟨1, 1, 0, 0⟩, 2⟩ := rfl
  · show c5LongSecond.1 = some "page-0"
    unfold c5LongSecond
    rw [hst]
    simp [get_or_create_channel_entry, check_if_channel_exists, doCall, allOk,
      queryChannels, filterMatches, channelQueryFilter, newChannelPage,
      update_channel_entry, get_existing_channel_data, lookupChannelPage,
      channelPageReadback, channel_update_required, pyEq, pyTruthy, hneq,
      mintPageId, emptyStore, bumpQuery, bumpGet, bumpUpdate]
    decide
  · show c5LongSecond.2.trace.updates = 1
    unfold c5LongSecond
    rw [hst]
    simp [get_or_create_channel_entry, check_if_channel_exists, doCall, allOk,
      queryChannels, filterMatches, channelQueryFilter, newChannelPage,
      update_channel_entry, get_existing_channel_data, lookupChannelPage,
      channelPageReadback, channel_update_required, pyEq, pyTruthy, hneq,
      mintPageId, emptyStore, bumpQuery, bumpGet, bumpUpdate]

/-- C6 counterexample: an item whose media-record remote write fails is NOT
counted as failed.  One fully populated video; the channel resolves and is
created, the video create POST answers non-200, so no media record is written
- yet the summary is succeeded 1 / failed 0, because `add_data_to_notion`
catches and only logs its write failures (main.py lines 689-697) while `main`
increments `success_count` unconditionally after the call (line 797). -/
theorem c6_counterexample :
    c6Run.2.1 = 1 ∧
    c6Run.2.2 = 0 ∧
    c6Run.1.store.videos = [] ∧
    c6Run.1.trace.creates = 2 := by
  decide

/-- C9 counterexample: the fallback for a malformed timestamp is not
deterministic across runs.  `parse_and_format_published_date` substitutes the
current wall-clock time (main.py line 148); two runs on the same malformed
input at clock readings one second apart produce different outputs. -/
theorem c9_counterexample :
    parse_and_format_published_date (fun _ => none) id
        { year := 2024, month := 1, day := 1, hour := 0, minute := 0, second := 0 }
        "not-a-date"
      ≠ parse_and_format_published_date (fun _ => none) id
        { year := 2024, month := 1, day := 1, hour := 0, minute := 0, second := 1 }
        "not-a-date" := by
  decide

/-- C9 amended: parse failures are never propagated; the duration fallback is
the fixed (hence run-independent) token "Unknown", while the timestamp
fallback is the current wall-clock reading formatted with the fixed pattern -
deterministic in the clock reading, but varying across runs made at different
times. -/
theorem c9_amended :
    (∀ (toTimedelta : String → Option TimedeltaComponents) (s : String),
      toTimedelta s = none → convert_duration toTimedelta s = "Unknown") ∧
    (∀ (strptime : String → Option PyDateTime) (toKolkata : PyDateTime → PyDateTime)
      (now : PyDateTime) (s : String),
      strptime s = none →
        parse_and_format_published_date strptime toKolkata now s = formatNotionTs now) := by
  constructor
  · intro f s h; simp [convert_duration, h]
  · intro f tk now s h; simp [parse_and_format_published_date, h]

/-- Witness for C9 amended at concrete inputs. -/
theorem c9_witness :
    convert_duration (fun _ => none) "not-a-duration" = "Unknown" ∧
    parse_and_format_published_date (fun _ => none) id
        { year := 2024, month := 1, day := 1, hour := 0, minute := 0, second := 0 }
        "not-a-date"
      = "2024-01-01T00:00:00.000Z" := by
  refine ⟨c9_amended.1 (fun _ => none) "not-a-duration" rfl, ?_⟩
  rw [c9_amended.2 (fun _ => none) id
    { year := 2024, month := 1, day := 1, hour := 0, minute := 0, second := 0 }
    "not-a-date" rfl]
  decide

/-- C3 amended: the video diff loop really is a both-maps-only diff gate
(membership of a diff key implies presence in both maps; all-equal compared
values mean an empty diff and, for both record types, no update call when the
fetched page compares clean).  The channel counterpart holds only in the
all-three-fields-equal form proved here - see the counterexample for the
stored-URL-against-null-incoming case, where a field absent from the incoming
map is treated as differing. -/
theorem c3_amended :
    (∀ (incoming existing : List (String × Option String)) (k : String),
      k ∈ videoDiffKeys incoming existing →
        (∃ v, (k, v) ∈ incoming) ∧ (∃ w, (k, w) ∈ existing)) ∧
    (∀ (incoming existing : List (String × Option String)),
      (∀ k v w, (k, v) ∈ incoming → List.lookup k existing = some w → pyEq w v = true) →
        videoDiffKeys incoming existing = [] ∧
        videoUpdateRequired incoming existing = false) ∧
    (∀ (o : Oracle) (pid : String) (d : VideoData) (rs : RState) (p : VideoPage),
      o rs.clock = CallResult.ok → lookupVideoPage rs.store pid = some p →
      videoUpdateRequired (videoIncomingMap d) (videoExistingMap p) = false →
        (update_video_entry o pid d rs).1.trace.updates = rs.trace.updates ∧
        (update_video_entry o pid d rs).1.store = rs.store) ∧
    (∀ (o : Oracle) (pid n cid : String) (lg cu : Option String) (rs : RState)
      (p : ChannelPage),
      o rs.clock = CallResult.ok → lookupChannelPage rs.store pid = some p →
      channel_update_required (channelPageReadback p) n cid cu = false →
        (update_channel_entry o pid n cid lg cu rs).trace.updates = rs.trace.updates ∧
        (update_channel_entry o pid n cid lg cu rs).store = rs.store) := by
  refine ⟨?_, ?_, ?_, ?_⟩
  · intro inc ex k hk
    unfold videoDiffKeys at hk
    rw [List.mem_filterMap] at hk
    obtain ⟨⟨k1, v1⟩, hmem, hf⟩ := hk
    cases hw : List.lookup k1 ex with
    | none => simp [hw] at hf
    | some w =>
      by_cases hpe : pyEq w v1 = true
      · simp [hw, hpe] at hf
      · simp [hw, hpe] at hf
        subst hf
        constructor
        · exact ⟨v1, hmem⟩
        · obtain ⟨l1, l2, hex, hrest⟩ := List.lookup_eq_some_iff.mp hw
          refine ⟨w, ?_⟩
          rw [hex]
          exact List.mem_append_right _ (List.mem_cons_self _ _)
  · intro inc ex h
    have hnil : videoDiffKeys inc ex = [] := by
      unfold videoDiffKeys
      rw [List.filterMap_eq_nil_iff]
      intro kv hkv
      obtain ⟨k1, v1⟩ := kv
      cases hw : List.lookup k1 ex with
      | none => simp [hw]
      | some w =>
        have hp := h k1 v1 w hkv hw
        simp [hw, hp]
    exact ⟨hnil, by unfold videoUpdateRequired; rw [hnil]; rfl⟩
  · intro o pid d rs p h hl hreq
    unfold update_video_entry get_existing_video_data doCall
    simp [h, hl, hreq, bumpGet]
  · intro o pid n cid lg cu rs p h hl hreq
    unfold update_channel_entry get_existing_channel_data doCall
    simp [h, hl, hreq, bumpGet]

/-- Witness for C3 amended: against a stored page that field-for-field equals
the incoming record, the video updater issues no update call. -/
theorem c3_witness :
    (update_video_entry allOk "page-7" dEx rsMatch).1.trace.updates = 0 :=
  (c3_amended.2.2.1 allOk "page-7" dEx rsMatch pMatch rfl (by decide) (by decide)).1

/-- Trace effect of `update_channel_entry`: no query, no create, at most one
update call. -/
theorem update_channel_trace (o : Oracle) (pid n cid : String) (lg cu : Option String)
    (rs : RState) :
    (update_channel_entry o pid n cid lg cu rs).trace.queries = rs.trace.queries ∧
    (update_channel_entry o pid n cid lg cu rs).trace.creates = rs.trace.creates ∧
    (update_channel_entry o pid n cid lg cu rs).trace.updates ≤ rs.trace.updates + 1 := by
  unfold update_channel_entry get_existing_channel_data doCall
  cases h : o rs.clock <;> simp [h, bumpGet, bumpUpdate]
  case ok =>
    cases hl : lookupChannelPage rs.store pid <;> simp [hl]
    case some p =>
      split
      · cases h2 : o (rs.clock + 1) <;> simp [h2, bumpGet, bumpUpdate]
      · simp

/-- Trace effect of `check_if_channel_exists`: exactly one query call, nothing
else, and the store is untouched. -/
theorem check_channel_trace (o : Oracle) (cid : String) (rs : RState) :
    (check_if_channel_exists o cid rs).2.trace.queries = rs.trace.queries + 1 ∧
    (check_if_channel_exists o cid rs).2.trace.creates = rs.trace.creates ∧
    (check_if_channel_exists o cid rs).2.trace.updates = rs.trace.updates ∧
    (check_if_channel_exists o cid rs).2.store = rs.store ∧
    (check_if_channel_exists o cid rs).2.clock = rs.clock + 1 := by
  unfold check_if_channel_exists doCall
  cases h : o rs.clock <;> simp [h, bumpQuery]
  case ok =>
    cases hq : queryChannels rs.store cid <;> simp [hq, bumpQuery]

/-- Trace effect of `create_channel_entry`: exactly one create call. -/
theorem create_channel_trace (o : Oracle) (n cid : String) (lg cu : Option String)
    (rs : RState) :
    (create_channel_entry o n cid lg cu rs).2.trace.queries = rs.trace.queries ∧
    (create_channel_entry o n cid lg cu rs).2.trace.creates = rs.trace.creates + 1 ∧
    (create_channel_entry o n cid lg cu rs).2.trace.updates = rs.trace.updates := by
  unfold create_channel_entry doCall
  cases h : o rs.clock <;> simp [h, bumpCreate]

/-- C5 amended: every resolver call issues exactly one existence query and at
most one write (create or update).  Idempotence holds only conditionally: for
a channel whose name survives the 2000-character truncation and whose custom
URL is either null or non-empty (the two sides of Python truthiness that
round-trip through the store), a second call with unchanged input returns the
same ref and performs no write and no store change.  The two excluded cases -
a name longer than 2000 characters, an empty-string custom URL - each make
the second call issue an update write (see the counterexample). -/
theorem c5_amended :
    (∀ (o : Oracle) (n cid : String) (lg cu : Option String) (rs : RState),
      (get_or_create_channel_entry o n cid lg cu rs).2.trace.queries
        = rs.trace.queries + 1 ∧
      (get_or_create_channel_entry o n cid lg cu rs).2.trace.creates
          + (get_or_create_channel_entry o n cid lg cu rs).2.trace.updates
        ≤ rs.trace.creates + rs.trace.updates + 1) ∧
    (∀ (n cid : String) (lg cu : Option String), pyTake 2000 n = n →
      cu = none ∨ pyTruthy cu = true →
      (get_or_create_channel_entry allOk n cid lg cu
          (get_or_create_channel_entry allOk n cid lg cu startState).2).1
        = (get_or_create_channel_entry allOk n cid lg cu startState).1 ∧
      (get_or_create_channel_entry allOk n cid lg cu
          (get_or_create_channel_entry allOk n cid lg cu startState).2).2.trace.creates
        = (get_or_create_channel_entry allOk n cid lg cu startState).2.trace.creates ∧
      (get_or_create_channel_entry allOk n cid lg cu
          (get_or_create_channel_entry allOk n cid lg cu startState).2).2.trace.updates
        = (get_or_create_channel_entry allOk n cid lg cu startState).2.trace.updates ∧
      (get_or_create_channel_entry allOk n cid lg cu
          (get_or_create_channel_entry allOk n cid lg cu startState).2).2.store
        = (get_or_create_channel_entry allOk n cid lg cu startState).2.store) := by
  constructor
  · intro o n cid lg cu rs
    unfold get_or_create_channel_entry
    cases hc : (check_if_channel_exists o cid rs).1 <;> simp only [hc]
    case none =>
      have h1 := check_channel_trace o cid rs
      have h2 := create_channel_trace o n cid lg cu (check_if_channel_exists o cid rs).2
      omega
    case some pid =>
      have h1 := check_channel_trace o cid rs
      have h2 := update_channel_trace o pid n cid lg cu (check_if_channel_exists o cid rs).2
      omega
  · intro n cid lg cu hn hcu
    have hc1 : get_or_create_channel_entry allOk n cid lg cu startState
        = (some (mintPageId emptyStore),
           ⟨⟨[newChannelPage emptyStore n cid lg cu], [], 1⟩, ⟨1, 1, 0, 0⟩, 2⟩) := rfl
    rw [hc1]
    have hu2 : pyEq (if pyTruthy cu then cu else none) cu = true := by
      rcases hcu with rfl | ht
      · rfl
      · cases cu with
        | none => simp [pyTruthy] at ht
        | some u => simp [ht, pyEq]
    simp [get_or_create_channel_entry, check_if_channel_exists, doCall, allOk,
      queryChannels, filterMatches, channelQueryFilter, newChannelPage,
      update_channel_entry, get_existing_channel_data, lookupChannelPage,
      channelPageReadback, channel_update_required, hn, hu2,
      mintPageId, emptyStore, bumpQuery, bumpGet]

/-- Witness for C5 amended at a concrete channel (short name, custom URL
present): the second call performs no update write. -/
theorem c5_witness :
    (get_or_create_channel_entry allOk "Chan" "c1" none (some "u")
        (get_or_create_channel_entry allOk "Chan" "c1" none (some "u") startState).2).2.trace.updates
      = (get_or_create_channel_entry allOk "Chan" "c1" none (some "u")
          startState).2.trace.updates :=
  (c5_amended.2 "Chan" "c1" none (some "u") (by decide) (by decide)).2.2.1

/-- C6 amended: every item yields exactly one counted outcome - nothing
escapes the loop and the summary counters always add up to the item total -
and an item is counted as failed exactly when its owning-entity resolution
returned a falsy ref; a failed media write does not make the item count as
failed (see the counterexample). -/
theorem c6_amended :
    (∀ (o : Oracle) (items : List VideoData) (rs : RState),
      (mainLoop o items rs).2.1 + (mainLoop o items rs).2.2 = items.length) ∧
    (∀ (o : Oracle) (d : VideoData) (rs : RState),
      (processVideoItem o d rs).2
        = pyTruthy (get_or_create_channel_entry o d.channel d.channelId
            d.channelLogoUrl d.channelCustomUrl rs).1) := by
  constructor
  · intro o items
    induction items with
    | nil => intro rs; rfl
    | cons d rest ih =>
      intro rs
      have h2 := ih (processVideoItem o d rs).1
      unfold mainLoop
      cases hb : (processVideoItem o d rs).2 <;> simp [hb] <;> omega
  · intro o d rs
    unfold processVideoItem
    cases hp : pyTruthy (get_or_create_channel_entry o d.channel d.channelId
        d.channelLogoUrl d.channelCustomUrl rs).1 <;> simp [hp]

/-- C7: the update path never touches the media-to-owner relation - the PATCH
payload of `update_video_entry` carries no "Channel" property, so the stored
relation of every page is the same after any update as before it - and the
relation is set at creation time, from the owner ref passed to the create. -/
theorem c7_update_preserves_relation :
    (∀ (d : VideoData) (p : VideoPage),
      (applyVideoPatch d p).channelRelation = p.channelRelation) ∧
    (∀ (o : Oracle) (pid : String) (d : VideoData) (rs : RState),
      (update_video_entry o pid d rs).1.store.videos.map
          (fun p => (p.pageId, p.channelRelation))
        = rs.store.videos.map (fun p => (p.pageId, p.channelRelation))) ∧
    (∀ (st : Store) (d : VideoData) (ref : Option String),
      (newVideoPage st d ref).channelRelation = if pyTruthy ref then ref else none) := by
  refine ⟨fun d p => rfl, ?_, fun st d ref => rfl⟩
  intro o pid d rs
  unfold update_video_entry get_existing_video_data doCall
  cases h : o rs.clock <;> simp only [h]
  case ok =>
    cases hl : lookupVideoPage rs.store pid <;> simp only [hl]
    case some p =>
      split
      · cases h2 : o (rs.clock + 1) <;> simp [h2, patchVideoInStore] <;>
          · intro a ha
            split <;> simp [applyVideoPatch]
      · rfl

/-- C8: every batch respects the limit, and a 120-identifier input is fetched
in exactly 3 calls with consecutive chunks of sizes 50, 50, 20 whose
concatenation in order is the input. -/
theorem c8_batch_chunking :
    (∀ (ids : List String) (b : List String), b ∈ youtubeBatches ids →
      b.length ≤ YOUTUBE_BATCH_SIZE) ∧
    (∀ ids : List String, ids.length = 120 →
      youtubeFetchCalls ids = 3 ∧
      (youtubeBatches ids).map List.length = [50, 50, 20] ∧
      (youtubeBatches ids).flatten = ids) := by
  constructor
  · intro ids b hb
    unfold youtubeBatches at hb
    rw [List.mem_map] at hb
    obtain ⟨i, hi, rfl⟩ := hb
    exact List.length_take_le _ _
  · intro ids h
    have hs : youtubeBatchStarts ids.length = [0, 50, 100] := by rw [h]; decide
    have h100 : (ids.drop 100).take 50 = ids.drop 100 :=
      List.take_of_length_le (by simp [List.length_drop, h])
    unfold youtubeFetchCalls youtubeBatches
    rw [hs]
    refine ⟨rfl, ?_, ?_⟩
    · simp [YOUTUBE_BATCH_SIZE, List.length_take, List.length_drop, h]
    · have hdd : ids.drop 100 = (ids.drop 50).drop 50 := by
        rw [List.drop_drop]
      simp only [YOUTUBE_BATCH_SIZE, List.map_cons, List.map_nil,
        List.flatten_cons, List.flatten_nil, List.append_nil, List.drop_zero]
      rw [h100, hdd, List.take_append_drop, List.take_append_drop]

/-- Witness for C8 at a concrete 120-identifier list. -/
theorem c8_witness :
    youtubeFetchCalls ((List.range 120).map toString) = 3 :=
  (c8_batch_chunking.2 ((List.range 120).map toString) (by simp)).1

/-- C10: both existence checks return `none` alike for zero matches, for a
non-200 response and for a raised exception; consequently a failed existence
query sends the caller down the create path exactly as if the record did not
exist - `add_data_to_notion` then creates, growing the video database by one
page even when a page with the same identity is already stored (the concrete
final conjunct exhibits the resulting duplicate). -/
theorem c10_failed_check_takes_create_path :
    (∀ (o : Oracle) (cid : String) (rs : RState), o rs.clock ≠ CallResult.ok →
      (check_if_channel_exists o cid rs).1 = none) ∧
    (∀ (o : Oracle) (vid : String) (rs : RState), o rs.clock ≠ CallResult.ok →
      (check_if_video_exists o vid rs).1 = none) ∧
    (∀ (o : Oracle) (cid : String) (rs : RState), queryChannels rs.store cid = [] →
      (check_if_channel_exists o cid rs).1 = none) ∧
    (∀ (o : Oracle) (vid : String) (rs : RState), queryVideos rs.store vid = [] →
      (check_if_video_exists o vid rs).1 = none) ∧
    (∀ (o : Oracle) (d : VideoData) (ref : Option String) (rs : RState),
      o rs.clock ≠ CallResult.ok → o (rs.clock + 1) = CallResult.ok →
        (add_data_to_notion o d ref rs).2 = Outcome.created ∧
        (add_data_to_notion o d ref rs).1.store.videos.length
          = rs.store.videos.length + 1) ∧
    ((add_data_to_notion failFirstCall dEx (some "page-0") rsDup).1.store.videos.filter
      (fun p => p.videoId == "vid1")).length = 2 := by
  refine ⟨?_, ?_, ?_, ?_, ?_, by decide⟩
  · intro o cid rs h
    unfold check_if_channel_exists doCall
    cases hr : o rs.clock <;> simp [hr] at h ⊢
  · intro o vid rs h
    unfold check_if_video_exists doCall
    cases hr : o rs.clock <;> simp [hr] at h ⊢
  · intro o cid rs h
    unfold check_if_channel_exists doCall
    cases hr : o rs.clock <;> simp [hr, h]
  · intro o vid rs h
    unfold check_if_video_exists doCall
    cases hr : o rs.clock <;> simp [hr, h]
  · intro o d ref rs h1 h2
    unfold add_data_to_notion check_if_video_exists doCall
    cases hr : o rs.clock <;> simp [hr] at h1 ⊢ <;> simp [h2]

/-- Witness for C10: with the first call raising and the store already holding
a page of the same identity, the upsert still goes down the create path. -/
theorem c10_witness :
    (add_data_to_notion failFirstCall dEx (some "page-0") rsDup).2 = Outcome.created :=
  (c10_failed_check_takes_create_path.2.2.2.2.1 failFirstCall dEx (some "page-0") rsDup
    (by decide) (by decide)).1
